import Mathlib

/-!
Verification of the `yfinance_mcp` data client (`src/yfinance_mcp/client.py`).

The client wraps an external finance-data provider.  We embed the client's
four operations shallowly: the provider is an environment of functions from
a symbol (and request shape) to either a table of OHLCV rows, an info
mapping, or a list of search quotes — or an exception.  Exceptions are
modelled by the Python exception classes that the source distinguishes
(`YFException`, `ValueError`, `KeyError`, `AttributeError`, `OSError`);
Python floats are modelled as rationals, Python `int(...)` truncation as
truncation toward zero.
-/

namespace Yf

/-- The Python exception classes named by the source's handlers:
`except (YFException, ValueError, KeyError, AttributeError, OSError)`
(client.py line 221) and `except (YFException, ValueError, KeyError, OSError)`
(lines 234, 291, 325, 335, 370). -/
inductive Exc where
  | yfException
  | valueError
  | keyError
  | attributeError
  | osError
deriving DecidableEq, Repr

/-- The exception classes caught at the four outer operation boundaries and
in the per-pair FX loop: `(YFException, ValueError, KeyError, OSError)`
(client.py lines 234, 291, 325, 335, 370).  `AttributeError` is not in
these tuples and propagates. -/
def fetchCaught : Exc → Bool
  | .yfException => true
  | .valueError => true
  | .keyError => true
  | .attributeError => false
  | .osError => true

/-- The exception classes caught at the nested `ticker.info` boundary:
`(YFException, ValueError, KeyError, AttributeError, OSError)`
(client.py line 221). -/
def infoCaught : Exc → Bool
  | .yfException => true
  | .valueError => true
  | .keyError => true
  | .attributeError => true
  | .osError => true

/-- A Python value as it appears in the provider's `info` / quote
dictionaries: `None`, an `int`, a `float`, a `str`, or anything else. -/
inductive PyVal where
  | noneV
  | intV (i : ℤ)
  | floatV (q : ℚ)
  | strV (s : String)
  | otherV
deriving DecidableEq, Repr

/-- Python `isinstance(v, (int, float))` together with the numeric value
(floats modelled as rationals). -/
def PyVal.toNum : PyVal → Option ℚ
  | .intV i => some (i : ℚ)
  | .floatV q => some q
  | _ => none

/-- A pandas timestamp from the history index: a calendar date part
(what `str(ts.date())` yields) and a time-of-day part that
`str(ts.date())` discards. -/
structure Ts where
  ymd : String
  tod : String
deriving DecidableEq, Repr

/-- One row of the provider's OHLCV history `DataFrame`:
the timestamp index entry and the `Open`/`High`/`Low`/`Close`/`Volume`
columns (floats modelled as rationals). -/
structure Row where
  ts : Ts
  open_ : ℚ
  high : ℚ
  low : ℚ
  close : ℚ
  volume : ℚ
deriving DecidableEq, Repr

/-- The value of `ticker.info`: either a Python dict (a key-ordered
association list) or a non-dict value (line 220 checks
`isinstance(raw_info, dict)`). -/
inductive InfoRes where
  | dict (d : List (String × PyVal))
  | nondict
deriving DecidableEq, Repr

/-- The shape of a `ticker.history(...)` call as issued by the client:
`period=...`, `start=.../end=...`, or `start=.../end=.../interval=...`. -/
inductive HistReq where
  | period (p : String)
  | range (start stop : Option String)
  | rangeInterval (start : String) (stop : Option String) (interval : String)
deriving DecidableEq, Repr

/-- The external provider: per symbol (and request shape), a history table,
an info value, and search quotes — each either a result or a raised
exception. -/
structure Env where
  history : String → HistReq → Except Exc (List Row)
  info : String → Except Exc InfoRes
  search : String → Except Exc (List (List (String × PyVal)))

/-- Python `dict.get(key)`: the value when the key is present, Python `None`
otherwise. -/
def infoGet (info : List (String × PyVal)) (key : String) : PyVal :=
  match info.lookup key with
  | some v => v
  | none => .noneV

/-- Python `dict.get(key, "")`: the value when the key is present, the empty
string otherwise (client.py lines 359-363). -/
def quoteGet (item : List (String × PyVal)) (key : String) : PyVal :=
  match item.lookup key with
  | some v => v
  | none => .strV ""

/-- Python `int(x)` on a float: truncation toward zero. -/
def pyInt (q : ℚ) : ℤ :=
  if 0 ≤ q then q.floor else -((-q).floor)

/-- Pandas `series.max()`: maximum of a column (callers only use it on non-empty
history, where the `headD` default is irrelevant). -/
def colMax (l : List ℚ) : ℚ := l.foldl max (l.headD 0)

/-- Pandas `series.min()`: minimum of a column. -/
def colMin (l : List ℚ) : ℚ := l.foldl min (l.headD 0)

/-- Pandas `series.tail(n).mean()`: the mean of the last `n` entries
(all entries when fewer than `n`). -/
def tailMean (n : ℕ) (l : List ℚ) : ℚ :=
  let t := l.drop (l.length - n)
  t.sum / (t.length : ℚ)

/-- The result of `_extract_fundamentals`: the six copied-through fields
(any non-`None` Python value is copied as-is) and the normalized dividend
yield. -/
structure Fundamentals where
  trailing_pe : Option PyVal
  forward_pe : Option PyVal
  price_to_book : Option PyVal
  market_cap : Option PyVal
  sector : Option PyVal
  trailing_eps : Option PyVal
  dividend_yield : Option ℚ
deriving DecidableEq, Repr

/-- Embeds `if val is not None: result[attr] = val` (client.py lines 123-125). -/
def optOfVal : PyVal → Option PyVal
  | .noneV => none
  | v => some v

/-- Embeds `_extract_fundamentals` (client.py lines 100-131): copy the six plain
fields through when present and non-`None`; dividend yield is kept only
when numeric and `> 0`, divided by `100.0` when `>= 1.0`. -/
def _extract_fundamentals (info : List (String × PyVal)) : Fundamentals :=
  let dy_raw := infoGet info "dividendYield"
  let dy : Option ℚ :=
    match dy_raw.toNum with
    | some q => if 0 < q then some (if 1 ≤ q then q / 100 else q) else none
    | none => none
  { trailing_pe := optOfVal (infoGet info "trailingPE")
    forward_pe := optOfVal (infoGet info "forwardPE")
    price_to_book := optOfVal (infoGet info "priceToBook")
    market_cap := optOfVal (infoGet info "marketCap")
    sector := optOfVal (infoGet info "sector")
    trailing_eps := optOfVal (infoGet info "trailingEps")
    dividend_yield := dy }

/-- The latest stock price snapshot (`StockPrice` dataclass,
client.py lines 18-64).  The `open` column is named `open_` because
`open` is reserved in Lean. -/
structure StockPrice where
  source : String
  code : String
  ticker : String
  date : String
  close : ℚ
  open_ : ℚ
  high : ℚ
  low : ℚ
  volume : ℤ
  week52_high : ℚ
  week52_low : ℚ
  avg_volume_30d : Option ℤ
  avg_volume_90d : Option ℤ
  trailing_pe : Option PyVal
  forward_pe : Option PyVal
  price_to_book : Option PyVal
  market_cap : Option PyVal
  sector : Option PyVal
  trailing_eps : Option PyVal
  dividend_yield : Option ℚ
deriving DecidableEq, Repr

/-- One emitted OHLCV row of `get_stock_history`
(client.py lines 272-282). -/
structure HistOutRow where
  date : String
  open_ : ℚ
  high : ℚ
  low : ℚ
  close : ℚ
  volume : ℤ
deriving DecidableEq, Repr

/-- The `PriceHistory` dataclass (client.py lines 67-84).  The `end` field
is named `end_` because `end` is reserved in Lean. -/
structure PriceHistory where
  source : String
  ticker : String
  start : String
  end_ : String
  rows : List HistOutRow
deriving DecidableEq, Repr

/-- The `FxRates` dataclass (client.py lines 87-97); the rates dict is an
insertion-ordered association list. -/
structure FxRates where
  source : String
  rates : List (String × ℚ)
deriving DecidableEq, Repr

/-- Embeds `_build_stock_price` (client.py lines 134-168).  The caller guarantees
a non-empty history table (`hist.iloc[-1]` would raise otherwise). -/
def _build_stock_price (code ticker_symbol : String) (hist : List Row)
    (info : List (String × PyVal)) (hne : hist ≠ []) : StockPrice :=
  let latest := hist.getLast hne
  let avg_vol_30d : Option ℚ :=
    if 30 ≤ hist.length then some (tailMean 30 (hist.map Row.volume)) else none
  let avg_vol_90d : Option ℚ :=
    if 90 ≤ hist.length then some (tailMean 90 (hist.map Row.volume)) else none
  let fundamentals := _extract_fundamentals info
  { source := "yfinance"
    code := code
    ticker := ticker_symbol
    date := (hist.getLast hne).ts.ymd
    close := latest.close
    open_ := latest.open_
    high := latest.high
    low := latest.low
    volume := pyInt latest.volume
    week52_high := colMax (hist.map Row.high)
    week52_low := colMin (hist.map Row.low)
    avg_volume_30d :=
      match avg_vol_30d with
      | some q => if q = 0 then none else some (pyInt q)
      | none => none
    avg_volume_90d :=
      match avg_vol_90d with
      | some q => if q = 0 then none else some (pyInt q)
      | none => none
    trailing_pe := fundamentals.trailing_pe
    forward_pe := fundamentals.forward_pe
    price_to_book := fundamentals.price_to_book
    market_cap := fundamentals.market_cap
    sector := fundamentals.sector
    trailing_eps := fundamentals.trailing_eps
    dividend_yield := fundamentals.dividend_yield }

/-- The history request issued by `get_stock_price`
(client.py lines 211-217): a start/end range when either bound is given,
else the trailing 1-year period. -/
def spReq (start_date end_date : Option String) : HistReq :=
  if start_date.isSome || end_date.isSome then .range start_date end_date
  else .period "1y"

/-- The nested `ticker.info` boundary of `get_stock_price`
(client.py lines 218-224): the caught tuple
`(YFException, ValueError, KeyError, AttributeError, OSError)` covers every
modelled exception class and yields the empty dict, and a non-dict
`raw_info` is replaced by the empty dict (line 220). -/
def infoOf (env : Env) (ticker_symbol : String) : List (String × PyVal) :=
  match env.info ticker_symbol with
  | .ok (.dict d) => d
  | .ok .nondict => []
  | .error _ => []

/-- Embeds `get_stock_price` (client.py lines 182-236).  `Except.error` models an
exception propagating to the caller; `.ok none` models returning `None`.
The history fetch runs first; if it raises, the exception reaches the
outer boundary (line 234), which converts the four caught classes to
`None`.  The `ticker.info` lookup has its own nested boundary, `infoOf`. -/
def get_stock_price (env : Env) (code : String)
    (start_date end_date : Option String) : Except Exc (Option StockPrice) :=
  let ticker_symbol := code ++ ".T"
  match env.history ticker_symbol (spReq start_date end_date) with
  | .error e => if fetchCaught e then .ok none else .error e
  | .ok hist =>
    let info : List (String × PyVal) := infoOf env ticker_symbol
    if hne : hist = [] then .ok none
    else .ok (some (_build_stock_price code ticker_symbol hist info hne))

/-- Embeds `get_stock_history` (client.py lines 238-293). -/
def get_stock_history (env : Env) (code : String) (start_date : String)
    (end_date : Option String) (interval : String) :
    Except Exc (Option PriceHistory) :=
  let ticker_symbol := code ++ ".T"
  match env.history ticker_symbol (.rangeInterval start_date end_date interval) with
  | .error e => if fetchCaught e then .ok none else .error e
  | .ok hist =>
    if hne : hist = [] then .ok none
    else
      let rows := hist.map fun r =>
        HistOutRow.mk r.ts.ymd r.open_ r.high r.low r.close (pyInt r.volume)
      .ok (some (PriceHistory.mk "yfinance" ticker_symbol
        (hist.head hne).ts.ymd (hist.getLast hne).ts.ymd rows))

/-- The FX pair catalog `FX_PAIRS` (client.py lines 175-180), in dict
insertion order. -/
def FX_PAIRS : List (String × String) :=
  [("USDJPY", "USDJPY=X"), ("EURJPY", "EURJPY=X"),
   ("GBPJPY", "GBPJPY=X"), ("CNYJPY", "CNYJPY=X")]

/-- The pair-selection dict comprehension
`{k: v for k, v in self.FX_PAIRS.items() if pairs is None or k in pairs}`
(client.py line 315). -/
def fxTarget (pairs : Option (List String)) : List (String × String) :=
  FX_PAIRS.filter fun kv =>
    match pairs with
    | none => true
    | some ps => ps.contains kv.1

/-- The per-pair fetch loop of `get_fx_rates` (client.py lines 317-328):
for each selected pair, fetch a 5-day history and record the latest close
when the table is non-empty; the four caught exception classes skip the
pair, any other class propagates out of the loop. -/
def fxLoop (env : Env) : List (String × String) → Except Exc (List (String × ℚ))
  | [] => .ok []
  | (name, sym) :: rest =>
    match env.history sym (.period "5d") with
    | .error e => if fetchCaught e then fxLoop env rest else .error e
    | .ok hist =>
      match hist.getLast? with
      | none => fxLoop env rest
      | some r => (fxLoop env rest).map (fun m => (name, r.close) :: m)

/-- Embeds `get_fx_rates` (client.py lines 295-337): run the per-pair loop over
the selected pairs; an empty rates dict yields `None` (line 332), and the
outer boundary (line 335) converts the four caught classes to `None`. -/
def get_fx_rates (env : Env) (pairs : Option (List String)) :
    Except Exc (Option FxRates) :=
  match fxLoop env (fxTarget pairs) with
  | .error e => if fetchCaught e then .ok none else .error e
  | .ok rates =>
    if rates = [] then .ok none
    else .ok (some (FxRates.mk "yfinance_fx" rates))

/-- The five-field record built for each search quote
(client.py lines 357-365), as a key-ordered dict. -/
def mkSearchRecord (item : List (String × PyVal)) : List (String × PyVal) :=
  [("symbol", quoteGet item "symbol"),
   ("short_name", quoteGet item "shortname"),
   ("long_name", quoteGet item "longname"),
   ("exchange", quoteGet item "exchange"),
   ("type", quoteGet item "quoteType")]

/-- Embeds `search_ticker` (client.py lines 339-372): project every provider
quote, in order, into the five-field record; the outer boundary
(line 370) converts the four caught classes to the empty list. -/
def search_ticker (env : Env) (query : String) :
    Except Exc (List (List (String × PyVal))) :=
  match env.search query with
  | .error e => if fetchCaught e then .ok [] else .error e
  | .ok quotes => .ok (quotes.map mkSearchRecord)

/-- The value the FX loop is expected to produce: each selected pair
contributes its own latest close, independently of every other pair;
a pair whose fetch raises or returns an empty table is omitted. -/
def fxExpected (env : Env) (t : List (String × String)) : List (String × ℚ) :=
  t.filterMap fun p =>
    match env.history p.2 (.period "5d") with
    | .error _ => none
    | .ok hist =>
      match hist.getLast? with
      | none => none
      | some r => some (p.1, r.close)

/-- Placeholder row used only as a `getD` default in theorem statements. -/
def dummyRow : Row := ⟨⟨"", ""⟩, 0, 0, 0, 0, 0⟩

/-- Placeholder output row used only as a `getD` default in theorem
statements. -/
def dummyOut : HistOutRow := ⟨"", 0, 0, 0, 0, 0⟩

/-- A sample single-row history table. -/
def row1 : Row := ⟨⟨"2025-01-06", "09:00:00"⟩, 1000, 1100, 900, 1050, 500000⟩

/-- A provider that answers every request successfully with one row, an
empty info dict, and no search quotes. -/
def envOk : Env :=
  ⟨fun _ _ => .ok [row1], fun _ => .ok (.dict []), fun _ => .ok []⟩

/-- A provider whose every call raises the given exception. -/
def envErr (e : Exc) : Env :=
  ⟨fun _ _ => .error e, fun _ => .error e, fun _ => .error e⟩

/-- A provider whose every history table is empty. -/
def envEmpty : Env :=
  ⟨fun _ _ => .ok [], fun _ => .ok (.dict []), fun _ => .ok []⟩

/-- The latest close row of a successful USDJPY FX fetch. -/
def fxRow : Row := ⟨⟨"2025-06-02", "00:00:00"⟩, 150, 150, 150, 150, 0⟩

/-- A provider where the USDJPY fetch succeeds at 150.0 and every other
fetch raises the given exception. -/
def envFxMixed (e : Exc) : Env :=
  ⟨fun sym _ => if sym = "USDJPY=X" then .ok [fxRow] else .error e,
   fun _ => .ok (.dict []), fun _ => .ok []⟩

/-- A 30-row history table with constant volume 1000. -/
def hist30 : List Row :=
  List.replicate 30 ⟨⟨"2025-01-06", "15:00:00"⟩, 10, 20, 5, 15, 1000⟩

/-- A provider answering every history request with the 30-row table. -/
def env30 : Env :=
  ⟨fun _ _ => .ok hist30, fun _ => .ok (.dict []), fun _ => .ok []⟩

/-- The snapshot `get_stock_price envOk "7203.T" none none` produces. -/
def spT : StockPrice :=
  _build_stock_price "7203.T" "7203.T.T" [row1] [] (by simp)

/-- The history `get_stock_history envOk "0072" "2025-01-01" none "1d"`
produces. -/
def phT : PriceHistory :=
  PriceHistory.mk "yfinance" "0072.T" "2025-01-06" "2025-01-06"
    [HistOutRow.mk "2025-01-06" 1000 1100 900 1050 500000]

/-- The snapshot `get_stock_price env30 "7203" none none` produces. -/
def sp30 : StockPrice :=
  _build_stock_price "7203" "7203.T" hist30 [] (by simp [hist30])

/-- A provider whose history succeeds with one row but whose `ticker.info`
lookup raises `AttributeError`. -/
def envInfoErr : Env :=
  ⟨fun _ _ => .ok [row1], fun _ => .error .attributeError, fun _ => .ok []⟩

/-- The snapshot `get_stock_price envInfoErr "7203" none none` produces. -/
def spT7 : StockPrice :=
  _build_stock_price "7203" "7203.T" [row1] [] (by simp)

/-- A provider whose search yields one quote with only a symbol and an
exchange. -/
def envSearch : Env :=
  ⟨fun _ _ => .ok [], fun _ => .ok (.dict []),
   fun _ => .ok [[("symbol", .strV "7203.T"), ("exchange", .strV "TSE")]]⟩

/-- Helper: a successful non-empty history fetch makes `get_stock_price`
return the built snapshot. -/
theorem get_stock_price_of_history (env : Env) (code : String)
    (sd ed : Option String) (hist : List Row)
    (hh : env.history (code ++ ".T") (spReq sd ed) = .ok hist)
    (hne : hist ≠ []) :
    get_stock_price env code sd ed =
      .ok (some (_build_stock_price code (code ++ ".T") hist
        (infoOf env (code ++ ".T")) hne)) := by
  unfold get_stock_price
  dsimp only
  rw [hh]
  simp [hne]

/-- Helper: an empty history table makes `get_stock_price` return `None`. -/
theorem get_stock_price_of_empty (env : Env) (code : String)
    (sd ed : Option String)
    (hh : env.history (code ++ ".T") (spReq sd ed) = .ok []) :
    get_stock_price env code sd ed = .ok none := by
  unfold get_stock_price
  dsimp only
  rw [hh]
  rfl

/-- Helper: inversion of a successful `get_stock_price` call. -/
theorem get_stock_price_some_inv (env : Env) (code : String)
    (sd ed : Option String) (sp : StockPrice)
    (h : get_stock_price env code sd ed = .ok (some sp)) :
    ∃ hist, ∃ hne : hist ≠ [],
      env.history (code ++ ".T") (spReq sd ed) = .ok hist ∧
      sp = _build_stock_price code (code ++ ".T") hist
        (infoOf env (code ++ ".T")) hne := by
  unfold get_stock_price at h
  dsimp only at h
  cases hh : env.history (code ++ ".T") (spReq sd ed) with
  | error e =>
    rw [hh] at h
    by_cases hc : fetchCaught e <;> simp [hc] at h
  | ok hist =>
    rw [hh] at h
    by_cases hne : hist = []
    · simp [hne] at h
    · simp only [hne, dite_false] at h
      refine ⟨hist, hne, rfl, ?_⟩
      simpa using h.symm

/-- Helper: a successful non-empty history fetch makes `get_stock_history`
return the mapped rows. -/
theorem get_stock_history_of_history (env : Env) (code : String)
    (s : String) (e : Option String) (i : String) (hist : List Row)
    (hh : env.history (code ++ ".T") (.rangeInterval s e i) = .ok hist)
    (hne : hist ≠ []) :
    get_stock_history env code s e i =
      .ok (some (PriceHistory.mk "yfinance" (code ++ ".T")
        ((hist.head hne).ts.ymd) ((hist.getLast hne).ts.ymd)
        (hist.map fun r =>
          HistOutRow.mk r.ts.ymd r.open_ r.high r.low r.close
            (pyInt r.volume)))) := by
  unfold get_stock_history
  dsimp only
  rw [hh]
  simp [hne]

/-- Helper: an empty table makes `get_stock_history` return `None`. -/
theorem get_stock_history_of_empty (env : Env) (code : String)
    (s : String) (e : Option String) (i : String)
    (hh : env.history (code ++ ".T") (.rangeInterval s e i) = .ok []) :
    get_stock_history env code s e i = .ok none := by
  unfold get_stock_history
  dsimp only
  rw [hh]
  rfl

/-- Helper: inversion of a successful `get_stock_history` call. -/
theorem get_stock_history_some_inv (env : Env) (code : String)
    (s : String) (e : Option String) (i : String) (ph : PriceHistory)
    (h : get_stock_history env code s e i = .ok (some ph)) :
    ∃ hist, ∃ hne : hist ≠ [],
      env.history (code ++ ".T") (.rangeInterval s e i) = .ok hist ∧
      ph = PriceHistory.mk "yfinance" (code ++ ".T")
        ((hist.head hne).ts.ymd) ((hist.getLast hne).ts.ymd)
        (hist.map fun r =>
          HistOutRow.mk r.ts.ymd r.open_ r.high r.low r.close
            (pyInt r.volume)) := by
  unfold get_stock_history at h
  dsimp only at h
  cases hh : env.history (code ++ ".T") (.rangeInterval s e i) with
  | error ex =>
    rw [hh] at h
    by_cases hc : fetchCaught ex <;> simp [hc] at h
  | ok hist =>
    rw [hh] at h
    by_cases hne : hist = []
    · simp [hne] at h
    · simp only [hne, dite_false] at h
      refine ⟨hist, hne, rfl, ?_⟩
      simpa using h.symm

/-- C1: for every input code, the resolved provider symbol equals the code
with the fixed suffix ".T" appended by plain string concatenation — no
stripping of an already-present ".T", no whitespace trimming, no case
change, leading zeros preserved — in both `get_stock_price` and
`get_stock_history`: every returned record carries exactly
`code ++ ".T"` as its ticker. -/
theorem c1_resolved_symbol :
    (∀ env code sd ed sp,
        get_stock_price env code sd ed = Except.ok (some sp) →
        sp.ticker = code ++ ".T") ∧
    (∀ env code s e i ph,
        get_stock_history env code s e i = Except.ok (some ph) →
        ph.ticker = code ++ ".T") := by
  constructor
  · intro env code sd ed sp h
    obtain ⟨hist, hne, hh, rfl⟩ := get_stock_price_some_inv env code sd ed sp h
    rfl
  · intro env code s e i ph h
    obtain ⟨hist, hne, hh, rfl⟩ := get_stock_history_some_inv env code s e i ph h
    rfl

/-- Witness for C1: a code already carrying ".T" is double-suffixed
("7203.T" resolves to "7203.T.T"), and leading zeros are preserved
("0072" resolves to "0072.T"). -/
theorem c1_resolved_symbol_witness :
    spT.ticker = "7203.T.T" ∧ phT.ticker = "0072.T" := by
  constructor
  · have h := c1_resolved_symbol.1 envOk "7203.T" none none spT rfl
    exact h.trans rfl
  · have h := c1_resolved_symbol.2 envOk "0072" "2025-01-01" none "1d" phT rfl
    exact h.trans rfl

/-- C8: if the provider returns an empty history table, `get_stock_price`
and `get_stock_history` both return absent, for every combination of the
other inputs (code, date bounds, interval). -/
theorem c8_empty_table_absent :
    (∀ env code sd ed,
        env.history (code ++ ".T") (spReq sd ed) = Except.ok [] →
        get_stock_price env code sd ed = Except.ok none) ∧
    (∀ env code s e i,
        env.history (code ++ ".T") (HistReq.rangeInterval s e i) =
          Except.ok [] →
        get_stock_history env code s e i = Except.ok none) :=
  ⟨fun env code sd ed hh => get_stock_price_of_empty env code sd ed hh,
   fun env code s e i hh => get_stock_history_of_empty env code s e i hh⟩

/-- Witness for C8: a provider whose tables are all empty yields absent
results for both operations at concrete inputs. -/
theorem c8_empty_table_absent_witness :
    get_stock_price envEmpty "7203" (some "2025-01-01") none =
      Except.ok none ∧
    get_stock_history envEmpty "7203" "2025-01-01" (some "2025-03-01")
      "1wk" = Except.ok none :=
  ⟨c8_empty_table_absent.1 envEmpty "7203" (some "2025-01-01") none rfl,
   c8_empty_table_absent.2 envEmpty "7203" "2025-01-01"
     (some "2025-03-01") "1wk" rfl⟩

/-- Helper: `Rat.floor` agrees with the floor of the `FloorRing`
instance. -/
theorem ratFloor_eq_intFloor (q : ℚ) : q.floor = ⌊q⌋ := by
  rw [Rat.floor_def', Rat.floor_def]

/-- Helper: the volume column of the sample 30-row table. -/
theorem hist30_vols : hist30.map Row.volume = List.replicate 30 1000 := by
  simp [hist30]

/-- Helper: the trailing 30-row mean volume of the sample table. -/
theorem hist30_mean : tailMean 30 (hist30.map Row.volume) = 1000 := by
  rw [hist30_vols]
  unfold tailMean
  simp [List.sum_replicate]
  norm_num

/-- Helper: the average-volume fields of the built snapshot as a nested
conditional on the table length and the (possibly zero) trailing mean. -/
theorem build_avg_volume (code t : String) (hist : List Row)
    (info : List (String × PyVal)) (hne : hist ≠ []) :
    ((_build_stock_price code t hist info hne).avg_volume_30d =
      if 30 ≤ hist.length then
        (if tailMean 30 (hist.map Row.volume) = 0 then none
         else some (pyInt (tailMean 30 (hist.map Row.volume))))
      else none) ∧
    ((_build_stock_price code t hist info hne).avg_volume_90d =
      if 90 ≤ hist.length then
        (if tailMean 90 (hist.map Row.volume) = 0 then none
         else some (pyInt (tailMean 90 (hist.map Row.volume))))
      else none) := by
  unfold _build_stock_price
  constructor <;> dsimp only <;>
    [by_cases h : 30 ≤ hist.length;
     by_cases h : 90 ≤ hist.length] <;>
    simp [h]

/-- C3: in `get_stock_price`, `avg_volume_30d` is present iff the returned
table has at least 30 rows and the mean of the trailing 30 rows' volume is
non-zero (a zero average collapses to absent); when present its value is
the integer truncation of that mean; likewise `avg_volume_90d` at 90
rows. -/
theorem c3_avg_volume :
    ∀ env code sd ed hist sp,
      env.history (code ++ ".T") (spReq sd ed) = Except.ok hist →
      get_stock_price env code sd ed = Except.ok (some sp) →
      (((∃ v, sp.avg_volume_30d = some v) ↔
          30 ≤ hist.length ∧ tailMean 30 (hist.map Row.volume) ≠ 0) ∧
        ∀ v, sp.avg_volume_30d = some v →
          v = pyInt (tailMean 30 (hist.map Row.volume))) ∧
      (((∃ v, sp.avg_volume_90d = some v) ↔
          90 ≤ hist.length ∧ tailMean 90 (hist.map Row.volume) ≠ 0) ∧
        ∀ v, sp.avg_volume_90d = some v →
          v = pyInt (tailMean 90 (hist.map Row.volume))) := by
  intro env code sd ed hist sp hh hsp
  obtain ⟨hist2, hne, hh2, rfl⟩ := get_stock_price_some_inv env code sd ed sp hsp
  rw [hh] at hh2
  injection hh2 with heq
  subst heq
  have hb := build_avg_volume code (code ++ ".T") hist
    (infoOf env (code ++ ".T")) hne
  constructor
  · rw [hb.1]
    by_cases h30 : 30 ≤ hist.length <;>
      by_cases hz : tailMean 30 (hist.map Row.volume) = 0 <;>
        simp [h30, hz]
  · rw [hb.2]
    by_cases h90 : 90 ≤ hist.length <;>
      by_cases hz : tailMean 90 (hist.map Row.volume) = 0 <;>
        simp [h90, hz]

/-- Witness for C3: on a 30-row table with constant volume 1000 the 30-day
average is present and equals 1000 while the 90-day average is absent. -/
theorem c3_avg_volume_witness :
    sp30.avg_volume_30d = some 1000 ∧ sp30.avg_volume_90d = none := by
  have h := c3_avg_volume env30 "7203" none none hist30 sp30 rfl rfl
  constructor
  · obtain ⟨v, hv⟩ := h.1.1.mpr
      ⟨by simp [hist30], by rw [hist30_mean]; norm_num⟩
    have hval := h.1.2 v hv
    rw [hv, hval, hist30_mean]
    simp [pyInt, ratFloor_eq_intFloor]
  · cases heq : sp30.avg_volume_90d with
    | none => rfl
    | some v =>
      have h90 := (h.2.1.mp ⟨v, heq⟩).1
      exact absurd h90 (by simp [hist30])

/-- C4: in fundamentals extraction, `dividend_yield` is present iff the
raw upstream value is numeric and strictly positive; raw values `>= 1.0`
are divided by 100, raw values `< 1.0` are kept unchanged; zero, negative
or non-numeric raw values leave the field absent. -/
theorem c4_dividend_yield :
    ∀ info,
      ((∃ y, (_extract_fundamentals info).dividend_yield = some y) ↔
        ∃ q, (infoGet info "dividendYield").toNum = some q ∧ 0 < q) ∧
      ∀ q, (infoGet info "dividendYield").toNum = some q → 0 < q →
        (_extract_fundamentals info).dividend_yield =
          some (if 1 ≤ q then q / 100 else q) := by
  intro info
  unfold _extract_fundamentals
  dsimp only
  generalize infoGet info "dividendYield" = raw
  cases hr : raw.toNum with
  | none => simp [hr]
  | some q =>
    by_cases hq : 0 < q
    · simp [hr, hq]
    · simp [hr, hq]
      exact le_of_not_lt hq

/-- Witness for C4: raw 2.56 and raw 0.0256 both yield 0.0256
(= 16/625), and a non-numeric raw value leaves the field absent. -/
theorem c4_dividend_yield_witness :
    (_extract_fundamentals
        [("dividendYield", PyVal.floatV (64 / 25))]).dividend_yield =
      some (16 / 625) ∧
    (_extract_fundamentals
        [("dividendYield", PyVal.floatV (16 / 625))]).dividend_yield =
      some (16 / 625) ∧
    (_extract_fundamentals
        [("dividendYield", PyVal.strV "N/A")]).dividend_yield = none := by
  refine ⟨?_, ?_, ?_⟩
  · have h := (c4_dividend_yield
      [("dividendYield", PyVal.floatV (64 / 25))]).2 (64 / 25) rfl
      (by norm_num)
    exact h.trans (by norm_num)
  · have h := (c4_dividend_yield
      [("dividendYield", PyVal.floatV (16 / 625))]).2 (16 / 625) rfl
      (by norm_num)
    exact h.trans (by norm_num)
  · cases heq : (_extract_fundamentals
        [("dividendYield", PyVal.strV "N/A")]).dividend_yield with
    | none => rfl
    | some y =>
      obtain ⟨q, hq, _⟩ := (c4_dividend_yield
        [("dividendYield", PyVal.strV "N/A")]).1.mp ⟨y, heq⟩
      have hq' : (none : Option ℚ) = some q := hq
      cases hq'

/-- C7: the fundamentals lookup has its own nested fault boundary: if it
raises (any modelled exception class) or returns a non-mapping value, the
snapshot is still returned whenever the history table is non-empty — built
from the empty info dict — and every fundamentals field of it is
absent. -/
theorem c7_fundamentals_boundary :
    ∀ env code sd ed hist, ∀ hne : hist ≠ [],
      env.history (code ++ ".T") (spReq sd ed) = Except.ok hist →
      ((∃ e, env.info (code ++ ".T") = Except.error e) ∨
        env.info (code ++ ".T") = Except.ok InfoRes.nondict) →
      get_stock_price env code sd ed =
        Except.ok (some (_build_stock_price code (code ++ ".T") hist
          [] hne)) ∧
      ∀ sp, get_stock_price env code sd ed = Except.ok (some sp) →
        sp.trailing_pe = none ∧ sp.forward_pe = none ∧
        sp.price_to_book = none ∧ sp.market_cap = none ∧
        sp.sector = none ∧ sp.trailing_eps = none ∧
        sp.dividend_yield = none := by
  intro env code sd ed hist hne hh hinfo
  have hio : infoOf env (code ++ ".T") = [] := by
    unfold infoOf
    rcases hinfo with ⟨e, he⟩ | he <;> rw [he]
  have hres := get_stock_price_of_history env code sd ed hist hh hne
  rw [hio] at hres
  refine ⟨hres, ?_⟩
  intro sp hsp
  rw [hres] at hsp
  injection hsp with hsp
  injection hsp with hsp
  subst hsp
  exact ⟨rfl, rfl, rfl, rfl, rfl, rfl, rfl⟩

/-- Witness for C7: with a one-row history and an `AttributeError` from
the `ticker.info` lookup, the snapshot is still returned and all
fundamentals fields are absent. -/
theorem c7_fundamentals_boundary_witness :
    get_stock_price envInfoErr "7203" none none = Except.ok (some spT7) ∧
    spT7.sector = none ∧ spT7.dividend_yield = none := by
  have h := c7_fundamentals_boundary envInfoErr "7203" none none [row1]
    (by simp) rfl (Or.inl ⟨Exc.attributeError, rfl⟩)
  have hflds := h.2 spT7 h.1
  exact ⟨h.1, hflds.2.2.2.2.1, hflds.2.2.2.2.2.2⟩

/-- Helper: when every selected pair's history error is of a caught class,
the FX loop returns exactly the per-pair expected rates. -/
theorem fxLoop_eq_fxExpected (env : Env) :
    ∀ t : List (String × String),
      (∀ p ∈ t, ∀ e, env.history p.2 (.period "5d") = Except.error e →
        fetchCaught e = true) →
      fxLoop env t = Except.ok (fxExpected env t) := by
  intro t
  induction t with
  | nil => intro _; rfl
  | cons p rest ih =>
    intro h
    have hrest := ih fun q hq => h q (List.mem_cons_of_mem _ hq)
    obtain ⟨name, sym⟩ := p
    cases hh : env.history sym (.period "5d") with
    | error e =>
      have hc : fetchCaught e = true := h _ (List.mem_cons_self _ _) e hh
      simp [fxLoop, fxExpected, List.filterMap_cons, hh, hc] at hrest ⊢
      exact hrest
    | ok hist =>
      cases hl : hist.getLast? with
      | none =>
        simp [fxLoop, fxExpected, List.filterMap_cons, hh, hl] at hrest ⊢
        exact hrest
      | some r =>
        simp [fxLoop, fxExpected, List.filterMap_cons, hh, hl] at hrest ⊢
        rw [hrest]
        rfl

/-- C5: pair selection in `get_fx_rates` — `pairs = none` selects the whole
catalog; an explicit list selects exactly the catalog entries whose name
it contains (unknown names silently dropped); an empty or unknown-only
list selects nothing and the result is absent for every provider
environment (the selected-pair list is empty, so the fetch loop never
consults the provider). -/
theorem c5_fx_pair_selection :
    fxTarget none = FX_PAIRS ∧
    (∀ ps p, p ∈ fxTarget (some ps) ↔ p ∈ FX_PAIRS ∧
      ps.contains p.1 = true) ∧
    (fxTarget (some []) = [] ∧
      ∀ env, get_fx_rates env (some []) = Except.ok none) ∧
    (∀ ps, (∀ p ∈ FX_PAIRS, ps.contains p.1 = false) →
      fxTarget (some ps) = [] ∧
      ∀ env, get_fx_rates env (some ps) = Except.ok none) := by
  refine ⟨rfl, ?_, ⟨rfl, fun env => rfl⟩, ?_⟩
  · intro ps p
    simp [fxTarget, List.mem_filter]
  · intro ps hps
    have ht : fxTarget (some ps) = [] := by
      unfold fxTarget
      refine List.filter_eq_nil_iff.mpr ?_
      intro a ha
      simpa using hps a ha
    refine ⟨ht, fun env => ?_⟩
    unfold get_fx_rates
    rw [ht]
    rfl

/-- Witness for C5: a request naming only the unknown pair "XYZJPY"
selects nothing and is absent even under a provider that always raises. -/
theorem c5_fx_pair_selection_witness :
    fxTarget (some ["XYZJPY"]) = [] ∧
    get_fx_rates (envErr Exc.osError) (some ["XYZJPY"]) = Except.ok none := by
  have h := c5_fx_pair_selection.2.2.2 ["XYZJPY"] (by decide)
  exact ⟨h.1, h.2 (envErr Exc.osError)⟩

/-- C6 (amended): a failure of one selected pair — an exception of one of
the caught classes (`YFException`, `ValueError`, `KeyError`, `OSError`),
or an empty result — causes only that pair to be omitted from the rates
mapping and never affects any other pair's entry (the mapping equals the
independent per-pair expectation); a failed pair is omitted, never set to
a sentinel; and an empty rates mapping makes the overall result absent.
Exceptions of other classes (e.g. `AttributeError`) are not caught by the
per-pair handler and propagate — see the counterexample. -/
theorem c6_fx_pair_independence :
    ∀ env pairs,
      (∀ p ∈ fxTarget pairs, ∀ e,
          env.history p.2 (.period "5d") = Except.error e →
          fetchCaught e = true) →
      get_fx_rates env pairs =
        Except.ok (if fxExpected env (fxTarget pairs) = [] then none
          else some (FxRates.mk "yfinance_fx"
            (fxExpected env (fxTarget pairs)))) := by
  intro env pairs h
  unfold get_fx_rates
  rw [fxLoop_eq_fxExpected env (fxTarget pairs) h]
  by_cases hX : fxExpected env (fxTarget pairs) = [] <;> simp [hX]

/-- Witness for C6: USDJPY succeeds at 150.0 while EURJPY's fetch raises
`KeyError` (a caught class): the result contains only USDJPY. -/
theorem c6_fx_pair_independence_witness :
    get_fx_rates (envFxMixed Exc.keyError) (some ["USDJPY", "EURJPY"]) =
      Except.ok (some (FxRates.mk "yfinance_fx" [("USDJPY", 150)])) := by
  have hp : ∀ p ∈ fxTarget (some ["USDJPY", "EURJPY"]), ∀ e,
      (envFxMixed Exc.keyError).history p.2 (HistReq.period "5d") =
        Except.error e →
      fetchCaught e = true := by
    intro p hp e he
    rcases List.mem_cons.mp hp with rfl | hp2
    · have h2 : (Except.ok [fxRow] : Except Exc (List Row)) =
        Except.error e := he
      exact Except.noConfusion h2
    · rcases List.mem_cons.mp hp2 with rfl | hp3
      · have h2 : (Except.error Exc.keyError : Except Exc (List Row)) =
          Except.error e := he
        injection h2 with h3
        rw [← h3]
        rfl
      · cases hp3
  have h := c6_fx_pair_independence (envFxMixed Exc.keyError)
    (some ["USDJPY", "EURJPY"]) hp
  exact h.trans rfl

/-- Counterexample for C6 as stated: an `AttributeError` raised by the
EURJPY fetch is not caught by the per-pair handler; it aborts the loop and
propagates, so the successful USDJPY rate is lost as well — one pair's
failure does affect the others. -/
theorem c6_fx_pair_independence_counterexample :
    get_fx_rates (envFxMixed Exc.attributeError)
        (some ["USDJPY", "EURJPY"]) = Except.error Exc.attributeError := by
  rfl

/-- C2 (amended): any exception of one of the caught classes
(`YFException`, `ValueError`, `KeyError`, `OSError`) raised by the
provider during the fetch is caught at each of the four operation
boundaries and converted to an absent result (the empty list for
`search_ticker`), never propagated to the caller.  Exceptions of other
classes (e.g. `AttributeError`) are not in the outer caught tuples and
propagate — see the counterexample. -/
theorem c2_provider_fault_absent :
    ∀ env e, fetchCaught e = true →
      (∀ sym req, env.history sym req = Except.error e) →
      (∀ q, env.search q = Except.error e) →
      ∀ code sd ed code2 s2 e2 itv pairs qry,
        get_stock_price env code sd ed = Except.ok none ∧
        get_stock_history env code2 s2 e2 itv = Except.ok none ∧
        get_fx_rates env pairs = Except.ok none ∧
        search_ticker env qry = Except.ok [] := by
  intro env e hc hh hs code sd ed code2 s2 e2 itv pairs qry
  refine ⟨?_, ?_, ?_, ?_⟩
  · unfold get_stock_price
    dsimp only
    rw [hh]
    simp [hc]
  · unfold get_stock_history
    dsimp only
    rw [hh]
    simp [hc]
  · have hloop : ∀ p ∈ fxTarget pairs, ∀ ex,
        env.history p.2 (.period "5d") = Except.error ex →
        fetchCaught ex = true := by
      intro p hp ex he
      rw [hh] at he
      injection he with he2
      rw [← he2]
      exact hc
    unfold get_fx_rates
    rw [fxLoop_eq_fxExpected env (fxTarget pairs) hloop]
    have hexp : fxExpected env (fxTarget pairs) = [] := by
      unfold fxExpected
      refine List.filterMap_eq_nil_iff.mpr ?_
      intro p hp
      rw [hh]
    rw [hexp]
    rfl
  · unfold search_ticker
    rw [hs]
    simp [hc]

/-- Witness for C2: a provider that always raises `OSError` yields absent
results from all four operations at concrete inputs. -/
theorem c2_provider_fault_absent_witness :
    get_stock_price (envErr Exc.osError) "7203" none none =
      Except.ok none ∧
    get_stock_history (envErr Exc.osError) "7203" "2025-01-01" none "1d" =
      Except.ok none ∧
    get_fx_rates (envErr Exc.osError) none = Except.ok none ∧
    search_ticker (envErr Exc.osError) "Toyota" = Except.ok [] :=
  c2_provider_fault_absent (envErr Exc.osError) Exc.osError rfl
    (fun _ _ => rfl) (fun _ => rfl) "7203" none none "7203" "2025-01-01"
    none "1d" none "Toyota"

/-- Counterexample for C2 as stated: an `AttributeError` raised by the
provider during the fetch is not in the outer caught tuple
`(YFException, ValueError, KeyError, OSError)` and propagates to the
caller instead of being converted to an absent result. -/
theorem c2_provider_fault_absent_counterexample :
    get_stock_price (envErr Exc.attributeError) "7203" none none =
      Except.error Exc.attributeError := by
  rfl

/-- Helper: the date field of the `j`-th emitted history row is the
calendar-date part of the `j`-th provider row. -/
theorem getD_map_date (hist : List Row) :
    ∀ j, j < hist.length →
      ((hist.map fun r =>
        HistOutRow.mk r.ts.ymd r.open_ r.high r.low r.close
          (pyInt r.volume)).getD j dummyOut).date =
        (hist.getD j dummyRow).ts.ymd := by
  induction hist with
  | nil => intro j hj; cases hj
  | cons a l ih =>
    intro j hj
    cases j with
    | zero => rfl
    | succ n => exact ih n (by simpa using hj)

/-- C9: for every non-empty provider table, `get_stock_history` emits
exactly one output row per returned observation in the provider's row
order, each row's date stringified to calendar-date precision (the
time-of-day part is discarded), and the result's start and end fields
equal the first and last returned rows' dates, not the requested
bounds. -/
theorem c9_history_rows :
    ∀ env code s e i hist ph, ∀ hne : hist ≠ [],
      env.history (code ++ ".T") (HistReq.rangeInterval s e i) =
        Except.ok hist →
      get_stock_history env code s e i = Except.ok (some ph) →
      ph.rows = (hist.map fun r =>
        HistOutRow.mk r.ts.ymd r.open_ r.high r.low r.close
          (pyInt r.volume)) ∧
      ph.rows.length = hist.length ∧
      (∀ j, j < hist.length →
        (ph.rows.getD j dummyOut).date = (hist.getD j dummyRow).ts.ymd) ∧
      ph.start = (hist.head hne).ts.ymd ∧
      ph.end_ = (hist.getLast hne).ts.ymd := by
  intro env code s e i hist ph hne hh hres
  obtain ⟨hist2, hne2, hh2, rfl⟩ :=
    get_stock_history_some_inv env code s e i ph hres
  rw [hh] at hh2
  injection hh2 with heq
  subst heq
  exact ⟨rfl, by simp, getD_map_date hist, rfl, rfl⟩

/-- Witness for C9: a one-row table yields one output row whose date is
the calendar part of the timestamp "2025-01-06 09:00:00", and start and
end both equal that returned date rather than the requested
"2025-01-01" bound. -/
theorem c9_history_rows_witness :
    phT.rows = [HistOutRow.mk "2025-01-06" 1000 1100 900 1050 500000] ∧
    phT.start = "2025-01-06" ∧ phT.end_ = "2025-01-06" := by
  have h := c9_history_rows envOk "0072" "2025-01-01" none "1d" [row1] phT
    (by simp) rfl rfl
  exact ⟨h.1.trans rfl, h.2.2.2.1, h.2.2.2.2⟩

/-- Helper: indexing the projected search records. -/
theorem getD_map_searchRecord (quotes : List (List (String × PyVal))) :
    ∀ j, j < quotes.length →
      ((quotes.map mkSearchRecord).getD j []) =
        mkSearchRecord (quotes.getD j []) := by
  induction quotes with
  | nil => intro j hj; cases hj
  | cons a l ih =>
    intro j hj
    cases j with
    | zero => rfl
    | succ n => exact ih n (by simpa using hj)

/-- C10: for every provider search response, `search_ticker` returns
exactly one output record per provider quote, in the provider's order,
and each record has exactly the five keys `symbol`, `short_name`,
`long_name`, `exchange`, `type` — no quote is filtered or deduplicated
and no extra keys are added. -/
theorem c10_search_projection :
    ∀ env q quotes,
      env.search q = Except.ok quotes →
      search_ticker env q = Except.ok (quotes.map mkSearchRecord) ∧
      (quotes.map mkSearchRecord).length = quotes.length ∧
      (∀ j, j < quotes.length →
        (quotes.map mkSearchRecord).getD j [] =
          mkSearchRecord (quotes.getD j [])) ∧
      ∀ item, (mkSearchRecord item).map Prod.fst =
        ["symbol", "short_name", "long_name", "exchange", "type"] := by
  intro env q quotes hs
  refine ⟨?_, by simp, getD_map_searchRecord quotes, fun item => rfl⟩
  unfold search_ticker
  rw [hs]

/-- Witness for C10: one quote carrying only a symbol and an exchange is
projected to the full five-field record with empty-string defaults, in
key order. -/
theorem c10_search_projection_witness :
    search_ticker envSearch "Toyota" =
      Except.ok [[("symbol", PyVal.strV "7203.T"),
        ("short_name", PyVal.strV ""), ("long_name", PyVal.strV ""),
        ("exchange", PyVal.strV "TSE"), ("type", PyVal.strV "")]] := by
  have h := c10_search_projection envSearch "Toyota"
    [[("symbol", PyVal.strV "7203.T"), ("exchange", PyVal.strV "TSE")]] rfl
  exact h.1.trans rfl

end Yf
